import Mathlib

/-!
# Verification of the mesa-solps simulation-run lifecycle manager

Shallow embedding of `src/mesa_solps/simulation.py` (classes `SolpsRun`,
`Solps`, and the function `build_solps_case`) and proofs about it.

Modelling conventions:
* Python strings are Lean `String`s; character-level operations work on
  `String.data : List Char`.
* Python `bytes` are `List Nat` (byte values); `str(some_bytes)` is modelled
  by `pyBytesRepr`, following CPython's `bytes.__repr__` escaping rules.
* Python `float` times are modelled as rationals `ℚ`.
* The filesystem state touched by `build_solps_case` is a record holding the
  reference-directory contents, whether the case directory exists, and the
  case-directory contents (association lists from filename to raw content).
* Exceptions are modelled by returning the partial state together with an
  `Option BuildError` (Python raises leave already-performed writes in place).
-/

namespace MesaSolps

/-- Is the first list a prefix of the second (Boolean, executable)? -/
def isPrefixB : List Char → List Char → Bool
  | [], _ => true
  | _ :: _, [] => false
  | a :: as, b :: bs => a = b && isPrefixB as bs

/-- Does `needle` occur as a contiguous substring of `haystack`?
Mirrors Python's `needle in haystack` for `str`. -/
def containsB (needle : List Char) : List Char → Bool
  | [] => isPrefixB needle []
  | h :: t => isPrefixB needle (h :: t) || containsB needle t

/-- Python's `a in b` on strings: substring containment. -/
def pyIn (needle haystack : String) : Bool :=
  containsB needle.data haystack.data

/-- First index at which `needle` occurs in `haystack`, if any. -/
def findIdxOfSub (needle : List Char) : List Char → Option Nat
  | [] => if isPrefixB needle [] then some 0 else none
  | h :: t =>
    if isPrefixB needle (h :: t) then some 0
    else (findIdxOfSub needle t).map (· + 1)

/-- Python's `haystack.find(needle)`: first index, or `-1` when absent. -/
def pyFind (haystack needle : String) : Int :=
  match findIdxOfSub needle.data haystack.data with
  | some n => (n : Int)
  | none => -1

/-- Clamp a Python slice index (possibly negative) to `[0, len]`. -/
def pySliceIdx (len : Nat) (i : Int) : Nat :=
  if i < 0 then ((len : Int) + i).toNat else min i.toNat len

/-- Python's `s[a:b]` slicing on strings (no step). -/
def pySlice (s : String) (a b : Int) : String :=
  String.mk ((s.data.take (pySliceIdx s.data.length b)).drop (pySliceIdx s.data.length a))

/-- Escape of one byte inside a CPython `bytes` repr quoted by `quote`. -/
def pyByteEscape (quote : Nat) (b : Nat) : List Char :=
  if b = 92 then [Char.ofNat 92, Char.ofNat 92]
  else if b = quote then [Char.ofNat 92, Char.ofNat b]
  else if b = 9 then [Char.ofNat 92, 't']
  else if b = 10 then [Char.ofNat 92, 'n']
  else if b = 13 then [Char.ofNat 92, 'r']
  else if 32 ≤ b ∧ b ≤ 126 then [Char.ofNat b]
  else [Char.ofNat 92, 'x', Nat.toDigits 16 b |>.getLast!, Nat.toDigits 16 b |>.head!]

/-- CPython's quote choice for `bytes.__repr__`: a single quote unless the
content holds a single quote but no double quote. -/
def pyReprQuote (bs : List Nat) : Nat :=
  if bs.contains 39 ∧ ¬ bs.contains 34 then 34 else 39

/-- Python's `str(b)` for `b : bytes`: the repr `b'...'` with escapes. -/
def pyBytesRepr (bs : List Nat) : String :=
  let q := pyReprQuote bs
  String.mk (('b' :: Char.ofNat q :: (bs.map (pyByteEscape q)).flatten) ++ [Char.ofNat q])

/-- Split raw file content into lines the way Python's `for line in f` does:
each yielded line keeps its trailing newline; a final fragment without a
newline is yielded as-is; empty content yields nothing. -/
def pyReadLinesAux (acc : List Char) : List Char → List String
  | [] => if acc.isEmpty then [] else [String.mk acc.reverse]
  | c :: rest =>
    if c = '\n' then String.mk (acc.reverse ++ ['\n']) :: pyReadLinesAux [] rest
    else pyReadLinesAux (c :: acc) rest

/-- Lines of a file's raw content, as Python file iteration yields them. -/
def pyReadLines (raw : String) : List String :=
  pyReadLinesAux [] raw.data

/-! ## `SolpsRun.status` (simulation.py lines 33-49) -/

/-- The four values of `RunStatus` returned by `SolpsRun.status`. -/
inductive RunStatus where
  | running
  | complete
  | crashed
  | timedOut
  deriving DecidableEq, Repr

/-- `SolpsRun.status`, as a pure function of its observations: the queue
text returned by `squeue`, whether `directory/balance.nc` exists
(`balance_created`), the current time, and the handle's stored fields.
Mirrors simulation.py lines 42-49. -/
def SolpsRun.status (run_id : String) (job_queue : String) (balance_created : Bool)
    (now launch_time : ℚ) (timeout_hours : ℚ) : RunStatus :=
  if ¬ pyIn run_id job_queue then
    if balance_created then .complete else .crashed
  else if now - launch_time > timeout_hours * 3600 then .timedOut
  else .running

/-! ## `SolpsRun.cleanup` (simulation.py lines 51-60) -/

/-- The allow-list tuple `allowed_files` from `SolpsRun.cleanup`. -/
def allowed_files : List String :=
  ["balance.nc", "input.dat", "b2.neutrals.parameters",
   "b2.boundary.parameters", "b2.numerics.parameters",
   "b2.transport.parameters", "b2.transport.inputfile",
   "b2mn.dat"]

/-- One entry of a run directory: a name plus whether it is a regular file
(`isfile`); non-file entries are subdirectories and the like. -/
structure DirEntry where
  name : String
  isfile : Bool
  deriving DecidableEq, Repr

/-- `SolpsRun.cleanup`: list the directory, keep the regular files
(`output_files`), compute `deletions` as those not on the allow-list, and
remove each; the function returns the directory contents afterwards. -/
def SolpsRun.cleanup (dir : List DirEntry) : List DirEntry :=
  let output_files := (dir.filter (fun e => e.isfile)).map DirEntry.name
  let deletions := output_files.filter (fun f => !(allowed_files.contains f))
  dir.filter (fun e => !(deletions.contains e.name))

/-! ## `build_solps_case` (simulation.py lines 163-228) -/

/-- The `input_files` list of `build_solps_case`. -/
def input_files : List String :=
  ["input.dat", "fort.1", "fort.13",
   "b2.neutrals.parameters", "b2.boundary.parameters",
   "b2.numerics.parameters", "b2.transport.parameters",
   "b2mn.dat"]

/-- Contents of a directory: association list from filename to raw content.
First binding wins, matching the uniqueness of names in a directory. -/
def lookupFile (files : List (String × String)) (name : String) : Option String :=
  (files.find? (fun p => p.1 = name)).map Prod.snd

/-- Filesystem state seen by `build_solps_case`: the reference directory's
files, whether the case directory exists, and (when it does) its files. -/
structure FileSys where
  ref : List (String × String)
  caseDirExists : Bool
  caseFiles : List (String × String)
  deriving DecidableEq, Repr

/-- The exceptions `build_solps_case` can raise: `FileExistsError` from
`case_directory.mkdir()`, `FileNotFoundError` from `sh.copy` when the
base-state file `b2fstate` is absent, the `FileNotFoundError` naming the
optional parameters when no `.mesa` templates exist, and the `ValueError`
listing the optional parameters never found in any template. -/
inductive BuildError where
  | alreadyExists
  | copySourceMissing
  | fileNotFound (optional_params : List String)
  | valueError (unwritten_params : List String)
  deriving DecidableEq, Repr

/-- The placeholder token `'\x7b' + p + '\x7d'` searched for in template lines. -/
def placeholder (p : String) : String := "\x7b" ++ p ++ "\x7d"

/-- The set `optional_params = {k for k in parameter_dictionary.keys()} -
required_parameters`, kept in dictionary key order (only membership is
observable through the set operations the source performs on it). -/
def optionalParams (required_parameters : List String)
    (parameter_dictionary : List (String × String)) : List String :=
  (parameter_dictionary.map Prod.fst).filter (fun k => !(required_parameters.contains k))

/-- `mesa_input_files`: the `input_files` names with `".mesa"` appended,
filtered to those present in the reference directory. -/
def mesaFiles (ref : List (String × String)) : List String :=
  (input_files.map (fun f => f ++ ".mesa")).filter (fun f => (lookupFile ref f).isSome)

/-- Add a name to the model of the Python set `written_params` (kept as a
duplicate-free list; only membership matters). -/
def addParam (w : List String) (p : String) : List String :=
  if w.contains p then w else w ++ [p]

/-- The inner loop `for p in optional_params: if '\x7bp\x7d' in line: ...` of
`build_solps_case`: the replacement computed by `line.replace` is discarded
by the source, so the only effect is recording `p` in `written_params`. -/
def lineWrites (optional_params : List String) (line : String) (w : List String) :
    List String :=
  optional_params.foldl (fun w p => if pyIn (placeholder p) line then addParam w p else w) w

/-- `written_params` after processing the given lines of one template file. -/
def fileWrites (optional_params : List String) (lines : List String) (w : List String) :
    List String :=
  lines.foldl (fun w line => lineWrites optional_params line w) w

/-- `written_params` after processing every template file's lines in order. -/
def allWrites (optional_params : List String) (fileLines : List (List String)) :
    List String :=
  fileLines.foldl (fun w lines => fileWrites optional_params lines w) []

/-- Raw content written for one template file: every line is appended to
`output` unchanged (the `line.replace` result is discarded), and the write
loop `f.write("%s\n" % item)` appends a newline to each stored line. -/
def templateOutput (raw : String) : String :=
  String.join ((pyReadLines raw).map (fun item => item ++ "\n"))

/-- Does the placeholder of parameter `p` occur in some line of some of the
given template files of the reference directory? -/
def placeholderOccurs (ref : List (String × String)) (mesa : List String) (p : String) :
    Bool :=
  mesa.any (fun mif =>
    (pyReadLines ((lookupFile ref mif).getD "")).any (fun line => pyIn (placeholder p) line))

/-- `build_solps_case(reference_directory, case_directory, parameter_dictionary)`.

`required_parameters` is the module-level constant imported from
`mesa_solps.parameters` (a file not present in the sources); it is taken
here as an explicit argument, so every theorem below holds for any value of
it. `parameter_dictionary` is the dict as an association list; its values
are the already-`str`-formatted parameter values (`val_string`).

Returns the filesystem state after the call together with the raised
exception, if any: writes performed before a raise remain, as in Python. -/
def build_solps_case (required_parameters : List String)
    (parameter_dictionary : List (String × String)) (s : FileSys) :
    FileSys × Option BuildError :=
  if s.caseDirExists then (s, some .alreadyExists)
  else
    match lookupFile s.ref "b2fstate" with
    | none => ({ s with caseDirExists := true, caseFiles := [] }, some .copySourceMissing)
    | some b2 =>
      let copied := ("b2fstati", b2) ::
        input_files.filterMap (fun n => (lookupFile s.ref n).map (fun c => (n, c)))
      let optional_params := optionalParams required_parameters parameter_dictionary
      let mesa_input_files := mesaFiles s.ref
      if optional_params.isEmpty then
        ({ s with caseDirExists := true, caseFiles := copied }, none)
      else if mesa_input_files.isEmpty then
        ({ s with caseDirExists := true, caseFiles := copied },
         some (.fileNotFound optional_params))
      else
        let processed := mesa_input_files.map (fun mif =>
          (mif, templateOutput ((lookupFile s.ref mif).getD "")))
        let written := allWrites optional_params
          (mesa_input_files.map (fun mif => pyReadLines ((lookupFile s.ref mif).getD "")))
        let unwritten_params := optional_params.filter (fun p => !(written.contains p))
        ({ s with caseDirExists := true, caseFiles := copied ++ processed },
         if unwritten_params.isEmpty then none else some (.valueError unwritten_params))

/-! ## `Solps.launch` (simulation.py lines 93-160) -/

/-- The literal marker `findstr = 'Submitted batch job'`. -/
def findstr : String := "Submitted batch job"

/-- The job-id extraction of `Solps.launch` (lines 148-150):
`tmp = str(start_run_output).find(findstr)` followed by
`job_id = str(start_run_output)[tmp + len(findstr) + 1:-3]`, where
`start_run_output` is the bytes read from the submission's stdout. -/
def parse_job_id (start_run_output : List Nat) : String :=
  let s := pyBytesRepr start_run_output
  let tmp := pyFind s findstr
  pySlice s (tmp + (findstr.length : Int) + 1) (-3)

/-- The exceptions `Solps.launch` can raise before reaching the submission:
an exception propagated from `build_solps_case` (line 111), or the
`KeyError` raised by `parameters[k]` on lines 118/122 when the dictionary
lacks a profile key `k`. -/
inductive LaunchError where
  | buildError (e : BuildError)
  | keyError (k : String)
  deriving DecidableEq, Repr

/-- The list comprehension `[parameters[k] for k in keys]` over a Python
dict: evaluates the lookups in order and raises `KeyError` at the first
missing key. -/
def pyDictLookups (parameters : List (String × String)) :
    List String → Except String (List String)
  | [] => .ok []
  | k :: ks =>
    match lookupFile parameters k with
    | none => .error k
    | some v => (pyDictLookups parameters ks).map (fun vs => v :: vs)

/-- The fields of the `SolpsRun` object that `launch` constructs. -/
structure SolpsRunRecord where
  run_id : String
  directory : String
  run_number : Nat
  launch_time : ℚ
  timeout_hours : ℚ
  deriving DecidableEq, Repr

/-- Process state threaded through `launch`: the working directory of the
process and the filesystem state of the case build. -/
structure ProcState where
  cwd : String
  fs : FileSys
  deriving DecidableEq, Repr

/-- `Solps.launch(run_number, simulations_directory, parameters)`.

`required_parameters`, `conductivity_profile` and `diffusivity_profile`
are the constants imported from the `mesa_solps.parameters` module (not
among the sources; in the bundled example configuration the profile lists
hold the nine `chi_*` and nine `D_*` shape-parameter names); they are taken
as explicit arguments, so every theorem below holds for any value of them.
Lines 118 and 122, `[parameters[k] for k in conductivity_profile]` and
`[parameters[k] for k in diffusivity_profile]`, are modelled by
`pyDictLookups`: a dictionary lacking a profile key raises `KeyError`
there, before any directory change or submission. The numeric profile
construction on the looked-up values and the text written by
`write_solps_transport_inputfile` (absent `mesa_solps.models` and
`mesa_solps.transport` modules, floating-point computations) are treated
as total, with the written text passed in as `transport_content`; the
write itself targets `case_dir / 'b2.transport.inputfile'` by path and
touches no directory state.

Inputs standing for the ambient world: `submit_exit_code` and
`submit_stdout` are the exit status and stdout bytes of the `itmsubmit`
submission process (the source reads only the stdout), and `now` is
`time()` at the return statement.

Returns the process state after the call (working directory and
filesystem) together with the raised exception or the constructed
`SolpsRun`. Before `os.chdir(case_dir)` on line 140 the working directory
is untouched; after the submission, line 146 runs
`os.chdir(simulations_directory)`. Directory paths are taken absolute. -/
def Solps.launch (required_parameters conductivity_profile diffusivity_profile : List String)
    (timeout_hours : ℚ) (run_number : Nat) (simulations_directory : String)
    (parameters : List (String × String)) (transport_content : String)
    (submit_exit_code : Int) (submit_stdout : List Nat) (now : ℚ)
    (st : ProcState) : ProcState × Except LaunchError SolpsRunRecord :=
  let case_dir := simulations_directory ++ "/run_" ++ toString run_number
  match build_solps_case required_parameters parameters st.fs with
  | (fs, some e) => ({ st with fs := fs }, .error (.buildError e))
  | (fs, none) =>
    match pyDictLookups parameters conductivity_profile with
    | .error k => ({ st with fs := fs }, .error (.keyError k))
    | .ok _chi_params =>
      match pyDictLookups parameters diffusivity_profile with
      | .error k => ({ st with fs := fs }, .error (.keyError k))
      | .ok _D_params =>
        let fs := { fs with
          caseFiles := fs.caseFiles ++ [("b2.transport.inputfile", transport_content)] }
        let _ := submit_exit_code
        let job_id := parse_job_id submit_stdout
        ({ cwd := simulations_directory, fs := fs },
         .ok { run_id := job_id, directory := case_dir, run_number := run_number,
               launch_time := now, timeout_hours := timeout_hours })

/-! ## `SolpsRun.get_results` (simulation.py lines 62-64) -/

/-- The handle constructed by `SolpsInterface(balance_filepath=...)`. -/
structure SolpsInterfaceHandle where
  balance_filepath : String
  deriving DecidableEq, Repr

/-- `SolpsRun.get_results`: builds `results_path = directory / "balance.nc"`
and returns `SolpsInterface(balance_filepath=results_path)`. The argument
`balance_exists` is the filesystem fact of whether that file exists; the
source never consults it, so the result cannot depend on it and no error is
ever produced. -/
def SolpsRun.get_results (directory : String) (balance_exists : Bool) :
    Except Unit SolpsInterfaceHandle :=
  let _ := balance_exists
  .ok { balance_filepath := directory ++ "/balance.nc" }

/-! ## Supporting lemmas -/

/-- The empty string is a substring of every string (Python: `'' in s`). -/
theorem containsB_nil (l : List Char) : containsB [] l = true := by
  cases l <;> simp [containsB, isPrefixB]

/-- `List.contains` agrees with membership for strings. -/
theorem contains_eq_mem (l : List String) (a : String) : l.contains a = true ↔ a ∈ l :=
  List.elem_iff

/-- Membership after the Python `set.add` model. -/
theorem mem_addParam (w : List String) (p q : String) :
    q ∈ addParam w p ↔ q ∈ w ∨ q = p := by
  unfold addParam
  split
  · next h =>
    rw [contains_eq_mem] at h
    constructor
    · exact Or.inl
    · rintro (hq | rfl)
      · exact hq
      · exact h
  · simp

/-- Membership in `written_params` after the inner loop over one line. -/
theorem mem_lineWrites (opt : List String) (line : String) (w : List String) (q : String) :
    q ∈ lineWrites opt line w ↔
      q ∈ w ∨ (q ∈ opt ∧ pyIn (placeholder q) line = true) := by
  induction opt generalizing w with
  | nil => simp [lineWrites]
  | cons p opt ih =>
    show q ∈ lineWrites opt line (if pyIn (placeholder p) line then addParam w p else w) ↔ _
    rw [ih]
    by_cases hp : pyIn (placeholder p) line = true
    · simp only [hp, if_true, mem_addParam, List.mem_cons]
      constructor
      · rintro ((hq | rfl) | ⟨hq, hin⟩)
        · exact Or.inl hq
        · exact Or.inr ⟨Or.inl rfl, hp⟩
        · exact Or.inr ⟨Or.inr hq, hin⟩
      · rintro (hq | ⟨rfl | hq, hin⟩)
        · exact Or.inl (Or.inl hq)
        · exact Or.inl (Or.inr rfl)
        · exact Or.inr ⟨hq, hin⟩
    · simp only [hp, if_false, List.mem_cons]
      constructor
      · rintro (hq | ⟨hq, hin⟩)
        · exact Or.inl hq
        · exact Or.inr ⟨Or.inr hq, hin⟩
      · rintro (hq | ⟨rfl | hq, hin⟩)
        · exact Or.inl hq
        · exact absurd hin hp
        · exact Or.inr ⟨hq, hin⟩

/-- Membership in `written_params` after processing one file's lines. -/
theorem mem_fileWrites (opt : List String) (lines : List String) (w : List String)
    (q : String) :
    q ∈ fileWrites opt lines w ↔
      q ∈ w ∨ (q ∈ opt ∧ ∃ line ∈ lines, pyIn (placeholder q) line = true) := by
  induction lines generalizing w with
  | nil => simp [fileWrites]
  | cons line lines ih =>
    show q ∈ fileWrites opt lines (lineWrites opt line w) ↔ _
    rw [ih, mem_lineWrites]
    constructor
    · rintro ((hq | ⟨hq, hin⟩) | ⟨hq, l, hl, hin⟩)
      · exact Or.inl hq
      · exact Or.inr ⟨hq, line, List.mem_cons_self _ _, hin⟩
      · exact Or.inr ⟨hq, l, List.mem_cons_of_mem _ hl, hin⟩
    · rintro (hq | ⟨hq, l, hl, hin⟩)
      · exact Or.inl (Or.inl hq)
      · rcases List.mem_cons.mp hl with rfl | hl
        · exact Or.inl (Or.inr ⟨hq, hin⟩)
        · exact Or.inr ⟨hq, l, hl, hin⟩

/-- Membership in `written_params` after processing all template files. -/
theorem mem_allWrites (opt : List String) (fls : List (List String)) (q : String) :
    q ∈ allWrites opt fls ↔
      q ∈ opt ∧ ∃ lines ∈ fls, ∃ line ∈ lines, pyIn (placeholder q) line = true := by
  have key : ∀ (fls : List (List String)) (w : List String),
      q ∈ fls.foldl (fun w lines => fileWrites opt lines w) w ↔
        q ∈ w ∨ (q ∈ opt ∧ ∃ lines ∈ fls, ∃ line ∈ lines,
          pyIn (placeholder q) line = true) := by
    intro fls
    induction fls with
    | nil => simp
    | cons lines fls ih =>
      intro w
      show q ∈ fls.foldl _ (fileWrites opt lines w) ↔ _
      rw [ih, mem_fileWrites]
      constructor
      · rintro ((hq | ⟨hq, l, hl, hin⟩) | ⟨hq, ls, hls, l, hl, hin⟩)
        · exact Or.inl hq
        · exact Or.inr ⟨hq, lines, List.mem_cons_self _ _, l, hl, hin⟩
        · exact Or.inr ⟨hq, ls, List.mem_cons_of_mem _ hls, l, hl, hin⟩
      · rintro (hq | ⟨hq, ls, hls, l, hl, hin⟩)
        · exact Or.inl (Or.inl hq)
        · rcases List.mem_cons.mp hls with rfl | hls
          · exact Or.inl (Or.inr ⟨hq, l, hl, hin⟩)
          · exact Or.inr ⟨hq, ls, hls, l, hl, hin⟩
  rw [allWrites, key]
  simp

/-- After any call to `build_solps_case` the case directory exists: either it
already did (the `FileExistsError` branch) or `mkdir` created it. -/
theorem build_solps_case_caseDirExists (req : List String)
    (pd : List (String × String)) (s : FileSys) :
    ((build_solps_case req pd s).1).caseDirExists = true := by
  unfold build_solps_case
  split
  · next h => simpa using h
  · split
    · rfl
    · dsimp only
      split
      · rfl
      · split
        · rfl
        · rfl

/-! ## Claim theorems -/

/-- **C3**: `status()` returns `complete` when the job id is absent from the
queue text and `balance.nc` exists; `crashed` when absent and the artifact
does not exist; `timed-out` when the job id is present and the elapsed time
since launch exceeds `timeout_hours`; and `running` otherwise. -/
theorem status_branches (run_id job_queue : String) (balance_created : Bool)
    (now launch_time timeout_hours : ℚ) :
    (pyIn run_id job_queue = false → balance_created = true →
      SolpsRun.status run_id job_queue balance_created now launch_time timeout_hours
        = .complete) ∧
    (pyIn run_id job_queue = false → balance_created = false →
      SolpsRun.status run_id job_queue balance_created now launch_time timeout_hours
        = .crashed) ∧
    (pyIn run_id job_queue = true → now - launch_time > timeout_hours * 3600 →
      SolpsRun.status run_id job_queue balance_created now launch_time timeout_hours
        = .timedOut) ∧
    (pyIn run_id job_queue = true → ¬ now - launch_time > timeout_hours * 3600 →
      SolpsRun.status run_id job_queue balance_created now launch_time timeout_hours
        = .running) := by
  refine ⟨fun h1 h2 => ?_, fun h1 h2 => ?_, fun h1 h2 => ?_, fun h1 h2 => ?_⟩ <;>
    simp [SolpsRun.status, h1, h2]

/-- Witness for **C3** at a concrete input: job id `"17"` absent from an
empty queue with the artifact present yields `complete`. -/
theorem status_branches_witness :
    SolpsRun.status "17" "" true 0 0 24 = .complete :=
  (status_branches "17" "" true 0 0 24).1 (by decide) rfl

/-- **C10**: with an empty `run_id`, substring containment in the queue text
always succeeds, so `status()` never returns `complete` or `crashed`: it is
`timed-out` once the elapsed time exceeds the timeout and `running` before. -/
theorem status_empty_run_id (job_queue : String) (balance_created : Bool)
    (now launch_time timeout_hours : ℚ) :
    SolpsRun.status "" job_queue balance_created now launch_time timeout_hours
      ≠ .complete ∧
    SolpsRun.status "" job_queue balance_created now launch_time timeout_hours
      ≠ .crashed ∧
    (now - launch_time > timeout_hours * 3600 →
      SolpsRun.status "" job_queue balance_created now launch_time timeout_hours
        = .timedOut) ∧
    (¬ now - launch_time > timeout_hours * 3600 →
      SolpsRun.status "" job_queue balance_created now launch_time timeout_hours
        = .running) := by
  have hin : pyIn "" job_queue = true := containsB_nil job_queue.data
  have hred : SolpsRun.status "" job_queue balance_created now launch_time timeout_hours
      = if now - launch_time > timeout_hours * 3600 then .timedOut else .running := by
    simp [SolpsRun.status, hin]
  rw [hred]
  refine ⟨?_, ?_, fun h => ?_, fun h => ?_⟩
  · split <;> simp
  · split <;> simp
  · rw [if_pos h]
  · rw [if_neg h]

/-- Witness for **C10** at a concrete input: an empty run id against an
empty queue is still `running` before the timeout, despite the artifact
being present. -/
theorem status_empty_run_id_witness :
    SolpsRun.status "" "" true 0 0 24 = .running :=
  (status_empty_run_id "" true 0 0 24).2.2.2 (by norm_num)

/-- **C6**: `cleanup()` keeps exactly the directory entries that are either
not regular files or allow-listed; equivalently it deletes exactly the
regular files whose names are off the allow-list, never touching the
allow-listed files (the directory itself survives: `cleanup` maps directory
contents to directory contents and removes only regular files). -/
theorem cleanup_exact (dir : List DirEntry) (hnd : (dir.map DirEntry.name).Nodup)
    (e : DirEntry) :
    e ∈ SolpsRun.cleanup dir ↔
      e ∈ dir ∧ (e.isfile = true → e.name ∈ allowed_files) := by
  show e ∈ dir.filter _ ↔ _
  rw [List.mem_filter]
  constructor
  · rintro ⟨h1, h2⟩
    refine ⟨h1, fun hf => ?_⟩
    by_contra hal
    have hdel : e.name ∈ (((dir.filter (fun e => e.isfile)).map DirEntry.name).filter
        (fun f => !(allowed_files.contains f))) := by
      refine List.mem_filter.mpr ⟨List.mem_map.mpr ⟨e, List.mem_filter.mpr ⟨h1, hf⟩, rfl⟩, ?_⟩
      rw [Bool.not_eq_true', ← Bool.not_eq_true, contains_eq_mem]
      simpa using hal
    rw [← contains_eq_mem] at hdel
    rw [hdel] at h2
    simp at h2
  · rintro ⟨h1, h2⟩
    refine ⟨h1, ?_⟩
    rw [Bool.not_eq_true', ← Bool.not_eq_true, contains_eq_mem]
    intro hmem
    obtain ⟨hmap, hnal⟩ := List.mem_filter.mp hmem
    obtain ⟨e', he', hname⟩ := List.mem_map.mp hmap
    obtain ⟨he'd, he'f⟩ := List.mem_filter.mp he'
    have heq : e' = e := List.inj_on_of_nodup_map hnd he'd h1 hname
    rw [heq] at he'f
    have hcon := (contains_eq_mem allowed_files e.name).mpr (h2 he'f)
    rw [hcon] at hnal
    simp at hnal

/-- Witness for **C6** at a concrete directory: the allow-listed
`balance.nc` is kept by `cleanup`. -/
theorem cleanup_exact_witness :
    (⟨"balance.nc", true⟩ : DirEntry) ∈
      SolpsRun.cleanup [⟨"balance.nc", true⟩, ⟨"junk.log", true⟩] :=
  (cleanup_exact [⟨"balance.nc", true⟩, ⟨"junk.log", true⟩] (by decide)
      ⟨"balance.nc", true⟩).mpr ⟨by decide, fun _ => by decide⟩

/-- **C7**: when the case directory already exists, `build_solps_case` stops
at `case_directory.mkdir()` with `FileExistsError`, leaving the filesystem
state exactly as it was; and since any call leaves the case directory in
existence, a second call on the state produced by a first call always fails
this way without modifying anything. -/
theorem build_solps_case_rejects_existing (req pd req₂ pd₂) (s : FileSys) :
    (s.caseDirExists = true →
      build_solps_case req pd s = (s, some .alreadyExists)) ∧
    build_solps_case req₂ pd₂ (build_solps_case req pd s).1 =
      ((build_solps_case req pd s).1, some .alreadyExists) := by
  have hall : ∀ (r : List String) (p : List (String × String)) (t : FileSys),
      t.caseDirExists = true → build_solps_case r p t = (t, some .alreadyExists) := by
    intro r p t ht
    unfold build_solps_case
    simp [ht]
  exact ⟨hall req pd s,
    hall req₂ pd₂ _ (build_solps_case_caseDirExists req pd s)⟩

/-- Witness for **C7** at a concrete input: a state whose case directory
exists is returned unchanged with `FileExistsError`. -/
theorem build_solps_case_rejects_existing_witness :
    build_solps_case [] [] ⟨[("b2fstate", "S")], true, [("input.dat", "old")]⟩ =
      (⟨[("b2fstate", "S")], true, [("input.dat", "old")]⟩, some .alreadyExists) :=
  (build_solps_case_rejects_existing [] [] [] []
    ⟨[("b2fstate", "S")], true, [("input.dat", "old")]⟩).1 rfl

/-- Occurrence of a parameter's placeholder in some template line, stated as
an existential. -/
theorem placeholderOccurs_iff (ref : List (String × String)) (mesa : List String)
    (p : String) :
    placeholderOccurs ref mesa p = true ↔
      ∃ lines ∈ mesa.map (fun mif => pyReadLines ((lookupFile ref mif).getD "")),
        ∃ line ∈ lines, pyIn (placeholder p) line = true := by
  simp [placeholderOccurs, List.any_eq_true]

/-- **C8**: with a non-empty set of optional parameters (dictionary keys
minus the required set), `build_solps_case` raises `FileNotFoundError`
naming the optional parameters when no `.mesa` template is present, and
raises `ValueError` listing exactly the optional parameters whose
placeholder occurs in no template line when templates are present but some
optional parameter is never matched. -/
theorem build_solps_case_optional_param_errors (req : List String)
    (pd : List (String × String)) (s : FileSys)
    (hdir : s.caseDirExists = false)
    (hb2 : (lookupFile s.ref "b2fstate").isSome = true)
    (hopt : optionalParams req pd ≠ []) :
    (∀ q, q ∈ optionalParams req pd ↔ q ∈ pd.map Prod.fst ∧ q ∉ req) ∧
    (mesaFiles s.ref = [] →
      (build_solps_case req pd s).2 = some (.fileNotFound (optionalParams req pd))) ∧
    (mesaFiles s.ref ≠ [] →
      ∀ p ∈ optionalParams req pd,
        placeholderOccurs s.ref (mesaFiles s.ref) p = false →
        ∃ l, (build_solps_case req pd s).2 = some (.valueError l) ∧
          ∀ q, q ∈ l ↔ q ∈ optionalParams req pd ∧
            placeholderOccurs s.ref (mesaFiles s.ref) q = false) := by
  obtain ⟨b2, hb2'⟩ := Option.isSome_iff_exists.mp hb2
  have hkeys : ∀ q, q ∈ optionalParams req pd ↔ q ∈ pd.map Prod.fst ∧ q ∉ req := by
    intro q
    rw [optionalParams, List.mem_filter]
    rw [Bool.not_eq_true', ← Bool.not_eq_true, contains_eq_mem]
  have hoptE : (optionalParams req pd).isEmpty = false := by
    simp [List.isEmpty_iff, hopt]
  have hmemu : ∀ q,
      q ∈ (optionalParams req pd).filter
        (fun p => !((allWrites (optionalParams req pd)
          ((mesaFiles s.ref).map
            (fun mif => pyReadLines ((lookupFile s.ref mif).getD "")))).contains p)) ↔
      q ∈ optionalParams req pd ∧
        placeholderOccurs s.ref (mesaFiles s.ref) q = false := by
    intro q
    rw [List.mem_filter]
    rw [Bool.not_eq_true', ← Bool.not_eq_true, contains_eq_mem, mem_allWrites]
    constructor
    · rintro ⟨hq, hnw⟩
      refine ⟨hq, ?_⟩
      rw [← Bool.not_eq_true, placeholderOccurs_iff]
      intro hex
      exact hnw ⟨hq, hex⟩
    · rintro ⟨hq, hno⟩
      refine ⟨hq, ?_⟩
      rintro ⟨-, hex⟩
      rw [← Bool.not_eq_true, placeholderOccurs_iff] at hno
      exact hno hex
  refine ⟨hkeys, fun hmesa => ?_, fun hmesa p hp hpno => ?_⟩
  · unfold build_solps_case
    rw [if_neg (by simp [hdir]), hb2']
    simp only [hmesa, hoptE]
    rfl
  · unfold build_solps_case
    rw [if_neg (by simp [hdir]), hb2']
    simp only [hoptE]
    have hmesaE : (mesaFiles s.ref).isEmpty = false := by
      simp [List.isEmpty_iff, hmesa]
    simp only [hmesaE]
    have hpin : p ∈ (optionalParams req pd).filter
        (fun p => !((allWrites (optionalParams req pd)
          ((mesaFiles s.ref).map
            (fun mif => pyReadLines ((lookupFile s.ref mif).getD "")))).contains p)) :=
      (hmemu p).mpr ⟨hp, hpno⟩
    have hne : ((optionalParams req pd).filter
        (fun p => !((allWrites (optionalParams req pd)
          ((mesaFiles s.ref).map
            (fun mif => pyReadLines ((lookupFile s.ref mif).getD "")))).contains p))).isEmpty
        = false := by
      rw [← Bool.not_eq_true, List.isEmpty_iff]
      exact List.ne_nil_of_mem hpin
    simp only [hne]
    exact ⟨_, by simp, hmemu⟩

/-- Witness for **C8** at a concrete input: optional parameters `p` and `q`
with a template matching only `p` raise `ValueError` listing `q` alone. -/
theorem build_solps_case_optional_param_errors_witness : ∃ l,
    (build_solps_case [] [("p", "1"), ("q", "2")]
      ⟨[("b2fstate", "S"), ("input.dat.mesa", "x = \x7bp\x7d\n")], false, []⟩).2 =
      some (.valueError l) ∧ "q" ∈ l ∧ "p" ∉ l := by
  obtain ⟨l, hl, hmem⟩ :=
    (build_solps_case_optional_param_errors [] [("p", "1"), ("q", "2")]
      ⟨[("b2fstate", "S"), ("input.dat.mesa", "x = \x7bp\x7d\n")], false, []⟩
      rfl rfl (by decide)).2.2 (by decide) "q" (by decide) (by decide)
  refine ⟨l, hl, (hmem "q").mpr ⟨by decide, by decide⟩, fun hp => ?_⟩
  exact absurd ((hmem "p").mp hp).2 (by decide)

/-- **C1** (violated by the source): at a reference directory holding the
template `input.dat.mesa` with the placeholder `\x7bp\x7d`, the build
succeeds but writes the *unsubstituted* lines (the `line.replace` result is
discarded) to the *template* filename `input.dat.mesa` in the case
directory; no `input.dat` is produced and the placeholder survives in the
written content (with a doubled newline from the write loop). -/
theorem build_solps_case_template_substitution_bug :
    (build_solps_case [] [("p", "3.5")]
      ⟨[("b2fstate", "S"), ("input.dat.mesa", "value = \x7bp\x7d\n")], false, []⟩).2
      = none ∧
    lookupFile (build_solps_case [] [("p", "3.5")]
      ⟨[("b2fstate", "S"), ("input.dat.mesa", "value = \x7bp\x7d\n")], false, []⟩).1.caseFiles
      "input.dat" = none ∧
    lookupFile (build_solps_case [] [("p", "3.5")]
      ⟨[("b2fstate", "S"), ("input.dat.mesa", "value = \x7bp\x7d\n")], false, []⟩).1.caseFiles
      "input.dat.mesa" = some "value = \x7bp\x7d\n\n" ∧
    pyIn (placeholder "p") "value = \x7bp\x7d\n\n" = true := by
  refine ⟨?_, ?_, ?_, ?_⟩ <;> decide

/-- Counterexample to **C5**: on a run directory lacking `balance.nc`
(`balance_exists = false`), `get_results` does not fail — it still returns
the handle, because the source never checks for the artifact. -/
theorem get_results_counterexample :
    SolpsRun.get_results "/tmp/sim/run_1" false =
      .ok ⟨"/tmp/sim/run_1/balance.nc"⟩ := rfl

/-- **C5** (amended): `get_results` never fails; for every run directory,
whether or not `balance.nc` exists, it returns a `SolpsInterface` handle
referencing exactly `directory/balance.nc`. -/
theorem get_results_always_ok (directory : String) (balance_exists : Bool) :
    SolpsRun.get_results directory balance_exists =
      .ok ⟨directory ++ "/balance.nc"⟩ := rfl

/-- Counterexample to **C2**: with a parameter dictionary holding the
profile keys (so the lookups of lines 118/122 succeed), a failed submission
(exit status 1, empty output, so the marker `'Submitted batch job'` is
absent) does not raise — `launch` returns a `SolpsRun` whose `run_id` is
the empty string. -/
theorem launch_submission_failure_counterexample :
    (Solps.launch ["chi_boundary_left", "D_boundary_left"] ["chi_boundary_left"]
      ["D_boundary_left"] 24 1 "/tmp/sim"
      [("chi_boundary_left", "1.0"), ("D_boundary_left", "0.5")] "" 1 [] 0
      ⟨"/tmp/sim", ⟨[("b2fstate", "S")], false, []⟩⟩).2 =
      .ok ⟨"", "/tmp/sim/run_1", 1, 0, 24⟩ := rfl

/-- **C2** (amended): once case construction and the profile-key lookups of
lines 118/122 succeed, `launch` performs no submission-failure check at
all: its result is independent of the submission's exit status, and when
the marker `'Submitted batch job'` is absent from the output it still
returns a `SolpsRun`, whose `run_id` is `str(output)[19:-3]` — the empty
string for empty output. -/
theorem launch_ignores_submission_failure (req cond diff : List String) (th : ℚ)
    (rn : Nat) (sd : String) (pd : List (String × String)) (tc : String)
    (ec₁ ec₂ : Int) (out : List Nat) (now : ℚ) (st : ProcState)
    (hbuild : (build_solps_case req pd st.fs).2 = none)
    (hchi : ∃ vs, pyDictLookups pd cond = .ok vs)
    (hD : ∃ vs, pyDictLookups pd diff = .ok vs)
    (hmiss : pyFind (pyBytesRepr out) findstr = -1) :
    Solps.launch req cond diff th rn sd pd tc ec₁ out now st =
      Solps.launch req cond diff th rn sd pd tc ec₂ out now st ∧
    ∃ r, (Solps.launch req cond diff th rn sd pd tc ec₁ out now st).2 = .ok r ∧
      r.run_id = pySlice (pyBytesRepr out) 19 (-3) := by
  obtain ⟨vs₁, hchi⟩ := hchi
  obtain ⟨vs₂, hD⟩ := hD
  rcases hb : build_solps_case req pd st.fs with ⟨fs, e⟩
  rw [hb] at hbuild
  simp only at hbuild
  subst hbuild
  refine ⟨rfl, ?_⟩
  simp only [Solps.launch, hb, hchi, hD]
  refine ⟨_, rfl, ?_⟩
  show parse_job_id out = _
  have hunf : parse_job_id out = pySlice (pyBytesRepr out)
      (pyFind (pyBytesRepr out) findstr + (findstr.length : Int) + 1) (-3) := rfl
  rw [hunf, hmiss, show (findstr.length : Int) = 19 from rfl]
  norm_num

/-- Witness for **C2** (amended) at a concrete input: a dictionary holding
the profile keys, empty submission output, differing exit statuses. -/
theorem launch_ignores_submission_failure_witness :
    Solps.launch ["chi_boundary_left", "D_boundary_left"] ["chi_boundary_left"]
        ["D_boundary_left"] 24 1 "/tmp/sim"
        [("chi_boundary_left", "1.0"), ("D_boundary_left", "0.5")] "" 1 [] 0
        ⟨"/tmp/sim", ⟨[("b2fstate", "T")], false, []⟩⟩ =
      Solps.launch ["chi_boundary_left", "D_boundary_left"] ["chi_boundary_left"]
        ["D_boundary_left"] 24 1 "/tmp/sim"
        [("chi_boundary_left", "1.0"), ("D_boundary_left", "0.5")] "" 0 [] 0
        ⟨"/tmp/sim", ⟨[("b2fstate", "T")], false, []⟩⟩ ∧
    ∃ r, (Solps.launch ["chi_boundary_left", "D_boundary_left"] ["chi_boundary_left"]
        ["D_boundary_left"] 24 1 "/tmp/sim"
        [("chi_boundary_left", "1.0"), ("D_boundary_left", "0.5")] "" 1 [] 0
        ⟨"/tmp/sim", ⟨[("b2fstate", "T")], false, []⟩⟩).2 = .ok r ∧
      r.run_id = pySlice (pyBytesRepr []) 19 (-3) :=
  launch_ignores_submission_failure ["chi_boundary_left", "D_boundary_left"]
    ["chi_boundary_left"] ["D_boundary_left"] 24 1 "/tmp/sim"
    [("chi_boundary_left", "1.0"), ("D_boundary_left", "0.5")] "" 1 0 [] 0
    ⟨"/tmp/sim", ⟨[("b2fstate", "T")], false, []⟩⟩ (by decide)
    ⟨["1.0"], rfl⟩ ⟨["0.5"], rfl⟩ (by decide)

/-- Counterexample to **C4**: a successful `launch` (parameter dictionary
holding the profile keys, so no exception fires) invoked with working
directory `/home/user` ends with the working directory at the
`simulations_directory` `/tmp/sim`, not at its pre-call value. -/
theorem launch_cwd_counterexample :
    (Solps.launch ["chi_boundary_left", "D_boundary_left"] ["chi_boundary_left"]
      ["D_boundary_left"] 24 1 "/tmp/sim"
      [("chi_boundary_left", "1.0"), ("D_boundary_left", "0.5")] "" 0 [] 0
      ⟨"/home/user", ⟨[("b2fstate", "S")], false, []⟩⟩).2 =
      .ok ⟨"", "/tmp/sim/run_1", 1, 0, 24⟩ ∧
    (Solps.launch ["chi_boundary_left", "D_boundary_left"] ["chi_boundary_left"]
      ["D_boundary_left"] 24 1 "/tmp/sim"
      [("chi_boundary_left", "1.0"), ("D_boundary_left", "0.5")] "" 0 [] 0
      ⟨"/home/user", ⟨[("b2fstate", "S")], false, []⟩⟩).1.cwd = "/tmp/sim" ∧
    (Solps.launch ["chi_boundary_left", "D_boundary_left"] ["chi_boundary_left"]
      ["D_boundary_left"] 24 1 "/tmp/sim"
      [("chi_boundary_left", "1.0"), ("D_boundary_left", "0.5")] "" 0 [] 0
      ⟨"/home/user", ⟨[("b2fstate", "S")], false, []⟩⟩).1.cwd ≠ "/home/user" := by
  refine ⟨rfl, rfl, by decide⟩

/-- **C4** (amended): after a `launch` that returns a `SolpsRun` the working
directory is `simulations_directory` (line 146's
`os.chdir(simulations_directory)`), which equals the pre-call value only
when `launch` was invoked from `simulations_directory`; when any exception
is raised — case construction failing, or a profile-key lookup raising
`KeyError` on line 118/122, all before the `os.chdir(case_dir)` of line
140 — the working directory is unchanged. -/
theorem launch_cwd_after (req cond diff : List String) (th : ℚ) (rn : Nat)
    (sd : String) (pd : List (String × String)) (tc : String) (ec : Int)
    (out : List Nat) (now : ℚ) (st : ProcState) :
    (∀ r, (Solps.launch req cond diff th rn sd pd tc ec out now st).2 = .ok r →
      (Solps.launch req cond diff th rn sd pd tc ec out now st).1.cwd = sd) ∧
    (∀ err, (Solps.launch req cond diff th rn sd pd tc ec out now st).2 = .error err →
      (Solps.launch req cond diff th rn sd pd tc ec out now st).1.cwd = st.cwd) := by
  rcases hb : build_solps_case req pd st.fs with ⟨fs, e⟩
  cases e with
  | some err =>
    constructor
    · intro r hr
      simp only [Solps.launch, hb] at hr
      exact Except.noConfusion hr
    · intro err' herr'
      simp only [Solps.launch, hb]
  | none =>
    rcases hc : pyDictLookups pd cond with k | vs₁
    · constructor
      · intro r hr
        simp only [Solps.launch, hb, hc] at hr
        exact Except.noConfusion hr
      · intro err' herr'
        simp only [Solps.launch, hb, hc]
    · rcases hd : pyDictLookups pd diff with k | vs₂
      · constructor
        · intro r hr
          simp only [Solps.launch, hb, hc, hd] at hr
          exact Except.noConfusion hr
        · intro err' herr'
          simp only [Solps.launch, hb, hc, hd]
      · constructor
        · intro r hr
          simp only [Solps.launch, hb, hc, hd]
        · intro err' herr'
          simp only [Solps.launch, hb, hc, hd] at herr'
          exact Except.noConfusion herr'

/-- Witness for **C4** (amended) at concrete inputs: a successful call ends
at `/tmp/sim`; a call rejected because the case directory exists, and a
call raising `KeyError` because the dictionary lacks the profile keys,
both leave the working directory at `/home/user`. -/
theorem launch_cwd_after_witness :
    (Solps.launch ["chi_boundary_left", "D_boundary_left"] ["chi_boundary_left"]
      ["D_boundary_left"] 24 1 "/tmp/sim"
      [("chi_boundary_left", "1.0"), ("D_boundary_left", "0.5")] "" 0 [] 0
      ⟨"/home/user", ⟨[("b2fstate", "S")], false, []⟩⟩).1.cwd = "/tmp/sim" ∧
    (Solps.launch ["chi_boundary_left", "D_boundary_left"] ["chi_boundary_left"]
      ["D_boundary_left"] 24 2 "/tmp/sim"
      [("chi_boundary_left", "1.0"), ("D_boundary_left", "0.5")] "" 0 [] 0
      ⟨"/home/user", ⟨[("b2fstate", "S")], true, []⟩⟩).1.cwd = "/home/user" ∧
    (Solps.launch ["chi_boundary_left", "D_boundary_left"] ["chi_boundary_left"]
      ["D_boundary_left"] 24 3 "/tmp/sim" [] "" 0 [] 0
      ⟨"/home/user", ⟨[("b2fstate", "S")], false, []⟩⟩).1.cwd = "/home/user" :=
  ⟨(launch_cwd_after ["chi_boundary_left", "D_boundary_left"] ["chi_boundary_left"]
      ["D_boundary_left"] 24 1 "/tmp/sim"
      [("chi_boundary_left", "1.0"), ("D_boundary_left", "0.5")] "" 0 [] 0
      ⟨"/home/user", ⟨[("b2fstate", "S")], false, []⟩⟩).1
      ⟨"", "/tmp/sim/run_1", 1, 0, 24⟩ rfl,
   (launch_cwd_after ["chi_boundary_left", "D_boundary_left"] ["chi_boundary_left"]
      ["D_boundary_left"] 24 2 "/tmp/sim"
      [("chi_boundary_left", "1.0"), ("D_boundary_left", "0.5")] "" 0 [] 0
      ⟨"/home/user", ⟨[("b2fstate", "S")], true, []⟩⟩).2
      (.buildError .alreadyExists) rfl,
   (launch_cwd_after ["chi_boundary_left", "D_boundary_left"] ["chi_boundary_left"]
      ["D_boundary_left"] 24 3 "/tmp/sim" [] "" 0 [] 0
      ⟨"/home/user", ⟨[("b2fstate", "S")], false, []⟩⟩).2
      (.keyError "chi_boundary_left") rfl⟩

/-- **C9**: when the submission output's string form ends with the marker
line — `str(start_run_output)` is any prefix followed by
`Submitted batch job 12345\n'` (the repr of a raw output ending in
`Submitted batch job 12345\n`), with the marker first occurring there —
`launch` returns a `SolpsRun` whose `run_id` is `"12345"`. -/
theorem launch_parses_job_id (req cond diff : List String) (th : ℚ) (rn : Nat)
    (sd : String) (pd : List (String × String)) (tc : String) (ec : Int) (now : ℚ)
    (st : ProcState) (out : List Nat) (t : List Char)
    (hbuild : (build_solps_case req pd st.fs).2 = none)
    (hchi : ∃ vs, pyDictLookups pd cond = .ok vs)
    (hD : ∃ vs, pyDictLookups pd diff = .ok vs)
    (hrepr : (pyBytesRepr out).data = t ++ "Submitted batch job 12345\\n'".data)
    (hfind : pyFind (pyBytesRepr out) findstr = (t.length : Int)) :
    ∃ r, (Solps.launch req cond diff th rn sd pd tc ec out now st).2 = .ok r ∧
      r.run_id = "12345" := by
  obtain ⟨vs₁, hchi⟩ := hchi
  obtain ⟨vs₂, hD⟩ := hD
  rcases hb : build_solps_case req pd st.fs with ⟨fs, e⟩
  rw [hb] at hbuild
  simp only at hbuild
  subst hbuild
  simp only [Solps.launch, hb, hchi, hD]
  refine ⟨_, rfl, ?_⟩
  show parse_job_id out = _
  have h28 : ("Submitted batch job 12345\\n'" : String).data.length = 28 := by decide
  have hlen : (pyBytesRepr out).data.length = t.length + 28 := by
    rw [hrepr, List.length_append, h28]
  have hidx1 : pySliceIdx ((pyBytesRepr out).data.length)
      ((t.length : Int) + (findstr.length : Int) + 1) = t.length + 20 := by
    rw [hlen, show (findstr.length : Int) = 19 from rfl]
    simp only [pySliceIdx]
    rw [if_neg (by omega)]
    omega
  have hidx2 : pySliceIdx ((pyBytesRepr out).data.length) (-3) = t.length + 25 := by
    rw [hlen]
    simp only [pySliceIdx]
    rw [if_pos (by omega)]
    omega
  simp only [parse_job_id, pySlice, hfind]
  rw [hidx1, hidx2, hrepr, List.take_append 25, List.drop_append 20]
  rfl

/-- Witness for **C9** at a concrete input: a dictionary holding the
profile keys and raw submission output `stuff\nSubmitted batch job 12345\n`
yield `run_id = "12345"`. -/
theorem launch_parses_job_id_witness :
    ∃ r, (Solps.launch ["chi_boundary_left", "D_boundary_left"] ["chi_boundary_left"]
        ["D_boundary_left"] 24 3 "/tmp/sim"
        [("chi_boundary_left", "1.0"), ("D_boundary_left", "0.5")] "" 0
        ("stuff\nSubmitted batch job 12345\n".data.map Char.toNat) 0
        ⟨"/tmp/sim", ⟨[("b2fstate", "S")], false, []⟩⟩).2 = .ok r ∧
      r.run_id = "12345" :=
  launch_parses_job_id ["chi_boundary_left", "D_boundary_left"] ["chi_boundary_left"]
    ["D_boundary_left"] 24 3 "/tmp/sim"
    [("chi_boundary_left", "1.0"), ("D_boundary_left", "0.5")] "" 0 0
    ⟨"/tmp/sim", ⟨[("b2fstate", "S")], false, []⟩⟩
    ("stuff\nSubmitted batch job 12345\n".data.map Char.toNat)
    "b'stuff\\n".data (by decide) ⟨["1.0"], rfl⟩ ⟨["0.5"], rfl⟩
    (by decide) (by decide)

end MesaSolps
